import Mathlib

/-!
Verification development for the `myphillyrising` view layer
(`website/myphillyrising/views.py`).

The Python views are shallowly embedded as pure Lean functions.  The
database is modelled as an explicit record of entity tables; Django ORM
querysets are modelled as list computations over that record; request
state (the caller, the wall clock, the session, query parameters) is
passed explicitly.  Side effects of the views (forcing a logout, writing
to the session) are returned as part of the result.  Python standard
library calls (`json.dumps`, `base64.b64encode`, `hmac`/`hashlib.sha1`)
are implemented concretely below so that the signed-token functions are
fully executable.
-/

/- ## Data model

Entity records mirroring the fields the views read.  `Neighborhood` is
identified by its unique short tag; a `UserProfile` references its user
by id and its neighborhood by tag, and carries the avatar URL used by
the SSO payload.  `UserAction` carries a point value and a Unix-seconds
timestamp. -/

structure User where
  id : Nat
  username : String
  email : String
  deriving Repr, DecidableEq

structure UserProfile where
  user_id : Nat
  neighborhood_tag : String
  avatar_url : String
  deriving Repr, DecidableEq

structure UserAction where
  id : Nat
  user_id : Nat
  points : Int
  timestamp : Nat
  deriving Repr, DecidableEq

structure Neighborhood where
  tag : String
  deriving Repr, DecidableEq

/-- The persisted state the views read: one table per entity. -/
structure Database where
  users : List User
  profiles : List UserProfile
  actions : List UserAction
  neighborhoods : List Neighborhood
  deriving Repr, DecidableEq

/-- Reverse one-to-one accessor `user.profile`: in Django, reading it on a
user without a profile raises `UserProfile.DoesNotExist`; we model the
lookup as an `Option`, `none` standing for the raising case. -/
def profileOf (db : Database) (u : User) : Option UserProfile :=
  db.profiles.find? (fun p => p.user_id == u.id)

/-- The request's caller: `request.user` is either an `AnonymousUser` or an
authenticated `User`. -/
inductive Caller where
  | anonymous
  | user (u : User)
  deriving Repr, DecidableEq

/-- Model of `user.is_authenticated()`. -/
def Caller.is_authenticated : Caller → Bool
  | .anonymous => false
  | .user _ => true

/-- Model of `request.user.pk`: `AnonymousUser.pk` is `None`. -/
def Caller.pk : Caller → Option Nat
  | .anonymous => none
  | .user u => some u.id

/-- Profile of the caller, if any; an anonymous caller never resolves a
profile. -/
def Caller.profile (db : Database) : Caller → Option UserProfile
  | .anonymous => none
  | .user u => profileOf db u

/- ## Python standard-library primitives used by the token signer -/

/-- Hexadecimal digit characters (lowercase, as `hexdigest` uses). -/
def hexDigit (n : Nat) : Char :=
  "0123456789abcdef".toList.getD n '0'

/-- Hex rendering of a list of bytes, two digits per byte. -/
def toHex (bytes : List Nat) : String :=
  String.mk (bytes.foldr (fun b acc => hexDigit (b / 16) :: hexDigit (b % 16) :: acc) [])

/-- Big-endian byte rendering of `x` in `n` bytes. -/
def toBytesBE (n : Nat) (x : Nat) : List Nat :=
  (List.range n).map (fun i => (x >>> (8 * (n - 1 - i))) % 256)

/-- UTF-8 bytes of a string, as naturals. -/
def strBytes (s : String) : List Nat :=
  s.toUTF8.toList.map (fun b => b.toNat)

/-- Escape of a single character per Python `json.dumps` (default
`ensure_ascii=True`): the two JSON metacharacters get backslash escapes,
the named control characters get their short escapes, other control and
all non-ASCII characters become `\uXXXX` sequences. -/
def jsonEscapeChar (c : Char) : List Char :=
  if c = '"' then ['\\', '"']
  else if c = '\\' then ['\\', '\\']
  else if c = '\n' then ['\\', 'n']
  else if c = '\t' then ['\\', 't']
  else if c = '\r' then ['\\', 'r']
  else if c.toNat = 8 then ['\\', 'b']
  else if c.toNat = 12 then ['\\', 'f']
  else if c.toNat < 32 || c.toNat > 126 then
    '\\' :: 'u' :: (List.range 4).map (fun i => hexDigit ((c.toNat >>> (4 * (3 - i))) % 16))
  else [c]

/-- JSON string literal for `s`. -/
def jsonString (s : String) : String :=
  "\"" ++ String.mk (s.toList.foldr (fun c acc => jsonEscapeChar c ++ acc) []) ++ "\""

/-- Model of `json.dumps` on a flat string-valued dict (Python 2 dicts are
rendered in insertion order for the literal dicts built by the views;
default separators are a comma-space and a colon-space). -/
def jsonDumps (kvs : List (String × String)) : String :=
  "\x7b" ++ String.intercalate ", "
    (kvs.map (fun kv => jsonString kv.1 ++ ": " ++ jsonString kv.2)) ++ "\x7d"

/-- The base64 alphabet. -/
def b64Char (n : Nat) : Char :=
  "ABCDEFGHIJKLMNOPQRSTUVWXYZabcdefghijklmnopqrstuvwxyz0123456789+/".toList.getD n 'A'

/-- Standard base64 of a byte list, with `=` padding. -/
def b64encodeBytes : List Nat → String
  | [] => ""
  | [a] =>
    String.mk [b64Char (a >>> 2), b64Char ((a % 4) <<< 4)] ++ "=="
  | [a, b] =>
    String.mk [b64Char (a >>> 2), b64Char (((a % 4) <<< 4) + (b >>> 4)),
      b64Char ((b % 16) <<< 2)] ++ "="
  | a :: b :: c :: rest =>
    String.mk [b64Char (a >>> 2), b64Char (((a % 4) <<< 4) + (b >>> 4)),
      b64Char (((b % 16) <<< 2) + (c >>> 6)), b64Char (c % 64)] ++ b64encodeBytes rest

/-- Model of `base64.b64encode` on a (byte) string. -/
def b64encode (s : String) : String :=
  b64encodeBytes (strBytes s)

/-- Rotate a 32-bit word left by `n` bits. -/
def rotl (n x : Nat) : Nat :=
  ((x <<< n) ||| (x >>> (32 - n))) % 4294967296

/-- SHA-1 padding: append `0x80`, zero bytes up to 56 mod 64, then the
64-bit big-endian bit length. -/
def sha1Pad (msg : List Nat) : List Nat :=
  let len := msg.length
  let k := (119 - len % 64) % 64
  msg ++ (128 :: List.replicate k 0) ++ toBytesBE 8 (8 * len)

/-- Split a byte list into 64-byte blocks. -/
def chunks64 (l : List Nat) : List (List Nat) :=
  if h : l = [] then []
  else l.take 64 :: chunks64 (l.drop 64)
termination_by l.length
decreasing_by
  simp only [List.length_drop]
  have hpos : 0 < l.length := List.length_pos.mpr h
  omega

/-- The sixteen big-endian 32-bit words of a 64-byte block. -/
def sha1Words (block : List Nat) : Array Nat :=
  ((List.range 16).map (fun i =>
    (block.getD (4 * i) 0) <<< 24 + (block.getD (4 * i + 1) 0) <<< 16 +
    (block.getD (4 * i + 2) 0) <<< 8 + block.getD (4 * i + 3) 0)).toArray

/-- The 80-word SHA-1 message schedule. -/
def sha1Schedule (w16 : Array Nat) : Array Nat :=
  (List.range 64).foldl (fun w i =>
    let j := i + 16
    w.push (rotl 1 ((w.getD (j - 3) 0) ^^^ (w.getD (j - 8) 0) ^^^
      (w.getD (j - 14) 0) ^^^ (w.getD (j - 16) 0)))) w16

/-- SHA-1 round function. -/
def sha1F (i b c d : Nat) : Nat :=
  if i < 20 then (b &&& c) ||| ((b ^^^ 4294967295) &&& d)
  else if i < 40 then b ^^^ c ^^^ d
  else if i < 60 then (b &&& c) ||| (b &&& d) ||| (c &&& d)
  else b ^^^ c ^^^ d

/-- SHA-1 round constants. -/
def sha1K (i : Nat) : Nat :=
  if i < 20 then 1518500249
  else if i < 40 then 1859775393
  else if i < 60 then 2400959708
  else 3395469782

/-- SHA-1 compression of one 64-byte block into the running state. -/
def sha1Compress (h : Nat × Nat × Nat × Nat × Nat) (block : List Nat) :
    Nat × Nat × Nat × Nat × Nat :=
  let w := sha1Schedule (sha1Words block)
  let (h0, h1, h2, h3, h4) := h
  let (a, b, c, d, e) := (List.range 80).foldl
    (fun st i =>
      let (a, b, c, d, e) := st
      let t := (rotl 5 a + sha1F i b c d + e + sha1K i + w.getD i 0) % 4294967296
      (t, a, rotl 30 b, c, d))
    (h0, h1, h2, h3, h4)
  ((h0 + a) % 4294967296, (h1 + b) % 4294967296, (h2 + c) % 4294967296,
   (h3 + d) % 4294967296, (h4 + e) % 4294967296)

/-- SHA-1 digest (20 bytes) of a byte list. -/
def sha1 (msg : List Nat) : List Nat :=
  let (h0, h1, h2, h3, h4) := (chunks64 (sha1Pad msg)).foldl sha1Compress
    (1732584193, 4023233417, 2562383102, 271733878, 3285377520)
  toBytesBE 4 h0 ++ toBytesBE 4 h1 ++ toBytesBE 4 h2 ++ toBytesBE 4 h3 ++ toBytesBE 4 h4

/-- HMAC-SHA1 (RFC 2104, 64-byte block size) over byte lists. -/
def hmacSha1 (key msg : List Nat) : List Nat :=
  let k := if 64 < key.length then sha1 key else key
  let k0 := k ++ List.replicate (64 - k.length) 0
  let ipad := k0.map (fun b => b ^^^ 54)
  let opad := k0.map (fun b => b ^^^ 92)
  sha1 (opad ++ sha1 (ipad ++ msg))

/-- Model of `hmac.HMAC(key, msg, hashlib.sha1).hexdigest()` on strings. -/
def hmacSha1Hex (key msg : String) : String :=
  toHex (hmacSha1 (strBytes key) (strBytes msg))

/- ## Token Signer (`MyPhillyRisingViewMixin.get_disqus_sso_*`) -/

/-- The configuration the token signer reads from `django.conf.settings`. -/
structure DisqusSettings where
  DISQUS_ACCOUNT_UNIQUIFIER : String
  DISQUS_SECRET_KEY : String
  deriving Repr, DecidableEq

/-- Embedding of the `data` dict built inside `get_disqus_sso_message`,
together with whether `logout(self.request)` was invoked.  An
authenticated caller with a profile yields the literal dict
`{'id': str(user.id) + uniquifier, 'username': ..., 'email': ...,
'avatar': user.profile.avatar_url}` in insertion order; an authenticated
caller whose profile lookup raises `UserProfile.DoesNotExist` is logged
out and yields the empty dict; an anonymous caller yields the empty
dict with no logout. -/
def get_disqus_sso_data (s : DisqusSettings) (db : Database) (user : Caller) :
    List (String × String) × Bool :=
  match user with
  | .user u =>
    match profileOf db u with
    | some p =>
      ([("id", toString u.id ++ s.DISQUS_ACCOUNT_UNIQUIFIER),
        ("username", u.username),
        ("email", u.email),
        ("avatar", p.avatar_url)], false)
    | none => ([], true)
  | .anonymous => ([], false)

/-- Embedding of `get_disqus_sso_message`: base64 of the JSON-serialized
payload, paired with the logout side effect. -/
def get_disqus_sso_message (s : DisqusSettings) (db : Database) (user : Caller) :
    String × Bool :=
  let (data, loggedOut) := get_disqus_sso_data s db user
  (b64encode (jsonDumps data), loggedOut)

/-- Embedding of `get_disqus_sso_timestamp`: `int(time.time())`, with the
wall clock passed in as the Unix-seconds parameter `t`. -/
def get_disqus_sso_timestamp (t : Nat) : Nat := t

/-- Embedding of `get_disqus_sso_signature`: HMAC-SHA1 hexdigest of
`'%s %s' % (message, timestamp)` keyed with `DISQUS_SECRET_KEY`. -/
def get_disqus_sso_signature (s : DisqusSettings) (message : String)
    (timestamp : Nat) : String :=
  hmacSha1Hex s.DISQUS_SECRET_KEY (message ++ " " ++ toString timestamp)

/-- Embedding of `get_disqus_sso_auth_string`:
`' '.join([message, signature, str(timestamp)])`, paired with the logout
side effect of producing the message. -/
def get_disqus_sso_auth_string (s : DisqusSettings) (db : Database)
    (user : Caller) (t : Nat) : String × Bool :=
  let (message, loggedOut) := get_disqus_sso_message s db user
  let timestamp := get_disqus_sso_timestamp t
  let signature := get_disqus_sso_signature s message timestamp
  (String.intercalate " " [message, signature, toString timestamp], loggedOut)

/- ## Read-Model Assembler (`get_user_queryset`, `get_neighborhood_queryset`) -/

/-- One row of `get_user_queryset`: a user together with its
`select_related` profile and neighborhood and its `prefetch_related`
action set. -/
structure UserRow where
  user : User
  profile : UserProfile
  neighborhood : Option Neighborhood
  actions : List UserAction
  deriving Repr, DecidableEq

/-- Embedding of `MyPhillyRisingViewMixin.get_user_queryset`:
`Neighbor.objects.all()` (a proxy over users)
`.select_related('profile').exclude(profile__isnull=True)`
`.select_related('profile__neighborhood').prefetch_related('actions')`.
Users without a profile are excluded; each kept row carries its profile,
the profile's neighborhood, and the user's full action set. -/
def get_user_queryset (db : Database) : List UserRow :=
  db.users.filterMap (fun u =>
    match profileOf db u with
    | none => none
    | some p =>
      some { user := u
             profile := p
             neighborhood := db.neighborhoods.find? (fun n => n.tag == p.neighborhood_tag)
             actions := db.actions.filter (fun a => a.user_id == u.id) })

/-- A user reached through `profiles__user`, carrying its prefetched
actions. -/
structure NeighborhoodUserRow where
  user : User
  actions : List UserAction
  deriving Repr, DecidableEq

/-- A profile of a neighborhood, carrying its user row (the user lookup is
a foreign key, modelled as an `Option`). -/
structure NeighborhoodProfileRow where
  profile : UserProfile
  user_row : Option NeighborhoodUserRow
  deriving Repr, DecidableEq

/-- One row of `get_neighborhood_queryset`. -/
structure NeighborhoodRow where
  neighborhood : Neighborhood
  profiles : List NeighborhoodProfileRow
  deriving Repr, DecidableEq

/-- Lexicographic order on character lists by codepoint, the order the
database applies to the `tag` column. -/
def lexLe : List Char → List Char → Bool
  | [], _ => true
  | _ :: _, [] => false
  | a :: as, b :: bs =>
    if a.toNat < b.toNat then true
    else if a.toNat = b.toNat then lexLe as bs
    else false

/-- Tag comparison for `order_by('tag')`. -/
def tagLe (a b : Neighborhood) : Bool :=
  lexLe a.tag.data b.tag.data

/-- Ordered insertion into an already-sorted list. -/
def orderedInsertB (le : α → α → Bool) (a : α) : List α → List α
  | [] => [a]
  | b :: l => if le a b then a :: b :: l else b :: orderedInsertB le a l

/-- Insertion sort by a boolean comparison. -/
def insertionSortB (le : α → α → Bool) : List α → List α
  | [] => []
  | a :: l => orderedInsertB le a (insertionSortB le l)

/-- Embedding of `MyPhillyRisingViewMixin.get_neighborhood_queryset`:
`Neighborhood.objects.all().prefetch_related('profiles__user__actions').order_by('tag')`.
Every neighborhood appears, ordered by tag ascending; each carries its
profiles, each profile its user, each user its prefetched action set.
Note that the `prefetch_related` carries the user's FULL action set: no
date restriction appears in the queryset, although the comment above it
in the source says to use only the actions of the last 30 days. -/
def get_neighborhood_queryset (db : Database) : List NeighborhoodRow :=
  (insertionSortB tagLe db.neighborhoods).map (fun n =>
    { neighborhood := n
      profiles := (db.profiles.filter (fun p => p.neighborhood_tag == n.tag)).map (fun p =>
        { profile := p
          user_row := (db.users.find? (fun u => u.id == p.user_id)).map (fun u =>
            { user := u
              actions := db.actions.filter (fun a => a.user_id == u.id) }) }) })

/-- Modelled from the spec: an action timestamp falls in the trailing
30-day window ending at wall-clock time `t` (Unix seconds).  This is the
restriction the spec (and the source comment) claims for the
neighborhood listing's prefetched actions. -/
def inTrailingWindow (t ts : Nat) : Bool :=
  decide (t ≤ ts + 30 * 86400)

/- ## App shell (`AppView.get_current_user_data`) -/

/-- The current-user view placed in the app-shell context: either the
literal empty object `{}` or the `LoggedInUserSerializer` rendering of
the caller's row (the serializer lives outside this fragment, so the
view keeps the row itself). -/
inductive CurrentUserView where
  | emptyObject
  | loggedInUser (row : UserRow)
  deriving Repr, DecidableEq

/-- Embedding of `AppView.get_current_user_data`.  An anonymous caller
gets `{}`; an authenticated caller whose profile access raises
`UserProfile.DoesNotExist` gets `{}`; otherwise
`self.get_user_queryset().get(pk=current_user.pk)` is serialized — the
`.get` raising (user not in the queryset) is the only uncaught error
path, modelled as `.error`. -/
def AppView.get_current_user_data (db : Database) (user : Caller) :
    Except String CurrentUserView :=
  match user with
  | .user u =>
    match profileOf db u with
    | none => .ok .emptyObject
    | some _ =>
      match (get_user_queryset db).find? (fun row => row.user.id == u.id) with
      | some row => .ok (.loggedInUser row)
      | none => .error "DoesNotExist"
  | .anonymous => .ok .emptyObject

/- ## Users endpoint (`UserViewSet`) -/

/-- The traversal `profile__neighborhood__tag_id__in=neighborhoods` for
one row: join the profile's neighborhood and test its tag for membership
in the requested list (an unresolvable reference joins to nothing). -/
def neighborhoodTagMatches (db : Database) (neighborhoods : List String)
    (row : UserRow) : Bool :=
  match db.neighborhoods.find? (fun n => n.tag == row.profile.neighborhood_tag) with
  | some n => neighborhoods.contains n.tag
  | none => false

/-- Embedding of `UserViewSet.get_queryset`: start from
`get_user_queryset`; if the repeatable `neighborhood` query parameter is
non-empty, filter to rows whose profile's neighborhood tag is in the
given list. -/
def UserViewSet.get_queryset (db : Database) (neighborhoods : List String) :
    List UserRow :=
  let queryset := get_user_queryset db
  if neighborhoods.isEmpty then queryset
  else queryset.filter (neighborhoodTagMatches db neighborhoods)

/-- The serializer class chosen for a user-resource response. -/
inductive SerializerChoice where
  | LoggedInUserSerializer
  | UserSerializer
  deriving Repr, DecidableEq

/-- Embedding of `UserViewSet.get_serializer_class`: the requested single
object, when set and non-`None`, is compared by `pk` with
`self.request.user.pk` (which is `None` for an anonymous caller); on
equality the logged-in ("self") serializer is chosen, otherwise the
class default `UserSerializer`. -/
def UserViewSet.get_serializer_class (obj : Option User) (request_user : Caller) :
    SerializerChoice :=
  match obj with
  | some o => if some o.id = request_user.pk then .LoggedInUserSerializer
              else .UserSerializer
  | none => .UserSerializer

/- ## Neighborhood-choice form (`ChooseNeighborhoodView`) -/

/-- The per-caller session, holding the two keys this flow touches. -/
structure Session where
  neighborhood : Option Neighborhood
  auth_provider : Option String
  deriving Repr, DecidableEq

/-- The `cleaned_data` of a valid `ChooseNeighborhoodForm`. -/
structure FormData where
  neighborhood : Neighborhood
  auth_provider : String
  deriving Repr, DecidableEq

/-- Outcome of form validation (the form's own rules live outside this
fragment; the view only branches on validity). -/
inductive FormOutcome where
  | valid (form : FormData)
  | invalid (errors : List String)
  deriving Repr, DecidableEq

/-- The response of the choice-form POST: a redirect, or a re-render of
the form carrying its validation errors. -/
inductive ChooseResponse where
  | redirect (url : String)
  | render (errors : List String)
  deriving Repr, DecidableEq

/-- Model of Django's `reverse`: URL resolution is framework-external;
it is modelled as joining the route name with its arguments. -/
def reverse (name : String) (args : List String) : String :=
  "/" ++ name ++ "/" ++ String.intercalate "/" args

/-- Embedding of `ChooseNeighborhoodView.get_success_url`:
`reverse('socialauth_complete', args=(self.auth_provider,))`. -/
def ChooseNeighborhoodView.get_success_url (auth_provider : String) : String :=
  reverse "socialauth_complete" [auth_provider]

/-- Embedding of the POST handling of `ChooseNeighborhoodView`: Django's
`FormView` dispatches a valid form to `form_valid` — which stores the
chosen neighborhood under the session's `neighborhood` key, records the
provider, and redirects to the success URL — and an invalid form to
`form_invalid`, which re-renders with the errors and touches nothing. -/
def ChooseNeighborhoodView.post (session : Session) (outcome : FormOutcome) :
    Session × ChooseResponse :=
  match outcome with
  | .valid form =>
    ({ session with neighborhood := some form.neighborhood },
     .redirect (ChooseNeighborhoodView.get_success_url form.auth_provider))
  | .invalid errors => (session, .render errors)

/- ## Concrete example data for witnesses and counterexamples -/

/-- Example user A: has a profile and two actions. -/
def userA : User := { id := 1, username := "alice", email := "alice@example.com" }

/-- Example user B: has no profile. -/
def userB : User := { id := 2, username := "bob", email := "bob@example.com" }

/-- Example user C: has a profile and no actions. -/
def userC : User := { id := 3, username := "carol", email := "carol@example.com" }

/-- Profile of user A, in neighborhood `fishtown`. -/
def profileA : UserProfile :=
  { user_id := 1, neighborhood_tag := "fishtown", avatar_url := "http://img/a.png" }

/-- Profile of user C, in neighborhood `germantown`. -/
def profileC : UserProfile :=
  { user_id := 3, neighborhood_tag := "germantown", avatar_url := "http://img/c.png" }

/-- An action of user A, recorded at Unix time 0 (far outside any recent
trailing window). -/
def staleAction : UserAction := { id := 10, user_id := 1, points := 5, timestamp := 0 }

/-- A second action of user A. -/
def recentAction : UserAction :=
  { id := 11, user_id := 1, points := 3, timestamp := 8600000 }

/-- Example database: users A, B, C as described in the spec's user-listing
example, two neighborhoods, A's two actions. -/
def exDb : Database :=
  { users := [userA, userB, userC]
    profiles := [profileA, profileC]
    actions := [staleAction, recentAction]
    neighborhoods := [{ tag := "germantown" }, { tag := "fishtown" }] }

/-- Example settings for the token signer. -/
def exSettings : DisqusSettings :=
  { DISQUS_ACCOUNT_UNIQUIFIER := "-mpr", DISQUS_SECRET_KEY := "s3cret" }

/-- Example wall-clock instant: 100 days after the epoch, so
`staleAction` is far outside the trailing 30-day window. -/
def exNow : Nat := 100 * 86400

/-- The row `get_user_queryset exDb` produces for user A. -/
def exRowA : UserRow :=
  { user := userA
    profile := profileA
    neighborhood := some { tag := "fishtown" }
    actions := [staleAction, recentAction] }

/- ## Shared helper lemmas -/

/-- Joining three strings with a space yields the two-separator form. -/
theorem intercalate_three (a b c : String) :
    String.intercalate " " [a, b, c] = a ++ " " ++ b ++ " " ++ c := rfl

/- ## Claims -/

/-- Claim C1, counterexample: for the concrete authenticated caller
`userA`, who has a profile, the SSO identity payload's field names are
`id`, `username`, `email` and `avatar` — the claimed field `avatar_url`
does not occur. -/
theorem sso_payload_avatar_url_counterexample :
    (get_disqus_sso_data exSettings exDb (.user userA)).1.map Prod.fst
      = ["id", "username", "email", "avatar"]
    ∧ "avatar_url" ∉ (get_disqus_sso_data exSettings exDb (.user userA)).1.map Prod.fst := by
  decide

/-- Claim C1, amended: for every authenticated caller with a profile, the
SSO identity payload contains exactly the four fields `id` (the user id
concatenated with the configured uniquifier suffix), `username`,
`email`, and `avatar` (carrying the profile's avatar URL), and no
others. -/
theorem sso_payload_fields (s : DisqusSettings) (db : Database) (u : User)
    (p : UserProfile) (h : profileOf db u = some p) :
    (get_disqus_sso_data s db (.user u)).1
      = [("id", toString u.id ++ s.DISQUS_ACCOUNT_UNIQUIFIER),
         ("username", u.username),
         ("email", u.email),
         ("avatar", p.avatar_url)] := by
  simp [get_disqus_sso_data, h]

/-- Claim C1, witness: user A of the example database. -/
theorem sso_payload_fields_witness :
    profileOf exDb userA = some profileA
    ∧ (get_disqus_sso_data exSettings exDb (.user userA)).1
        = [("id", toString userA.id ++ exSettings.DISQUS_ACCOUNT_UNIQUIFIER),
           ("username", userA.username),
           ("email", userA.email),
           ("avatar", profileA.avatar_url)] :=
  ⟨by decide, sso_payload_fields exSettings exDb userA profileA (by decide)⟩

/-- Claim C2 (code bug), evaluation at the failing input: at wall-clock
time `exNow` (100 days after the epoch) the neighborhood listing of the
example database carries, for user A, the action `staleAction` whose
timestamp lies far outside the trailing 30-day window — the queryset
applies no date restriction, contradicting the claimed (and
source-commented) window. -/
theorem neighborhood_queryset_carries_stale_action :
    get_neighborhood_queryset exDb
      = [{ neighborhood := { tag := "fishtown" }
           profiles := [{ profile := profileA
                          user_row := some { user := userA
                                             actions := [staleAction, recentAction] } }] },
         { neighborhood := { tag := "germantown" }
           profiles := [{ profile := profileC
                          user_row := some { user := userC, actions := [] } }] }]
    ∧ inTrailingWindow exNow staleAction.timestamp = false := by
  decide

/-- Claim C3: an anonymous caller yields the empty payload with no
logout; an authenticated caller whose profile lookup fails yields the
empty payload and is logged out, and the message produced in both cases
is the base64 encoding of the serialized empty object — no error is
surfaced. -/
theorem sso_message_guard (s : DisqusSettings) (db : Database) (u : User) :
    get_disqus_sso_message s db .anonymous = (b64encode (jsonDumps []), false)
    ∧ (profileOf db u = none →
        get_disqus_sso_message s db (.user u) = (b64encode (jsonDumps []), true)) := by
  constructor
  · rfl
  · intro h
    simp [get_disqus_sso_message, get_disqus_sso_data, h]

/-- Claim C3, witness: user B of the example database has no profile. -/
theorem sso_message_guard_witness :
    get_disqus_sso_message exSettings exDb (.user userB) = (b64encode (jsonDumps []), true)
    ∧ get_disqus_sso_message exSettings exDb .anonymous = (b64encode (jsonDumps []), false) :=
  ⟨(sso_message_guard exSettings exDb userB).2 (by decide),
   (sso_message_guard exSettings exDb userB).1⟩

/-- Claim C4: for every caller, the SSO handoff string is
`<message> <signature> <timestamp>`, where `message` is the SSO message
for the caller, `timestamp` renders the Unix-seconds call time, and
`signature` is the hex HMAC-SHA1, keyed with the configured secret, of
`<message> <timestamp>`. -/
theorem sso_auth_string_format (s : DisqusSettings) (db : Database)
    (user : Caller) (t : Nat) :
    (get_disqus_sso_auth_string s db user t).1
      = (get_disqus_sso_message s db user).1 ++ " "
        ++ hmacSha1Hex s.DISQUS_SECRET_KEY
             ((get_disqus_sso_message s db user).1 ++ " "
               ++ toString (get_disqus_sso_timestamp t))
        ++ " " ++ toString (get_disqus_sso_timestamp t) := by
  unfold get_disqus_sso_auth_string
  cases hm : get_disqus_sso_message s db user with
  | mk m lo =>
    simp [hm, get_disqus_sso_signature, get_disqus_sso_timestamp, intercalate_three]

/-- Claim C5: every caller without a stored profile — anonymous or
authenticated — receives exactly the empty object as the app-shell
current-user view, with no error raised. -/
theorem current_user_data_empty (db : Database) (c : Caller)
    (h : c.profile db = none) :
    AppView.get_current_user_data db c = .ok .emptyObject := by
  cases c with
  | anonymous => rfl
  | user u =>
    simp only [Caller.profile] at h
    simp [AppView.get_current_user_data, h]

/-- Claim C5, witness: the profile-less (but existing) user B, and the
anonymous caller. -/
theorem current_user_data_empty_witness :
    AppView.get_current_user_data exDb (.user userB) = .ok .emptyObject
    ∧ AppView.get_current_user_data exDb .anonymous = .ok .emptyObject :=
  ⟨current_user_data_empty exDb (.user userB) (by decide),
   current_user_data_empty exDb .anonymous (by decide)⟩

/-- Claim C6: the user listing returns exactly the users that have a
profile, in table order, and each returned row carries the user's
profile, that profile's neighborhood, and the user's complete action
set with no time restriction. -/
theorem user_queryset_spec (db : Database) :
    (get_user_queryset db).map UserRow.user
      = db.users.filter (fun u => (profileOf db u).isSome)
    ∧ ∀ row, row ∈ get_user_queryset db →
        profileOf db row.user = some row.profile
        ∧ row.neighborhood
            = db.neighborhoods.find? (fun n => n.tag == row.profile.neighborhood_tag)
        ∧ row.actions = db.actions.filter (fun a => a.user_id == row.user.id) := by
  constructor
  · show (db.users.filterMap _).map _ = db.users.filter _
    induction db.users with
    | nil => rfl
    | cons u l ih =>
      cases hp : profileOf db u <;>
        simp [List.filterMap_cons, List.filter_cons, hp, ih]
  · intro row hrow
    unfold get_user_queryset at hrow
    obtain ⟨u, hu, hf⟩ := List.mem_filterMap.mp hrow
    cases hp : profileOf db u with
    | none => simp [hp] at hf
    | some p =>
      simp only [hp] at hf
      obtain rfl := Option.some.inj hf
      exact ⟨hp, rfl, rfl⟩

/-- Claim C6, witness: in the example database, users A (profile, two
actions) and C (profile, no actions) are listed while the profile-less
user B is dropped, and A's row carries A's full action set. -/
theorem user_queryset_spec_witness :
    (get_user_queryset exDb).map UserRow.user = [userA, userC]
    ∧ exRowA.actions = exDb.actions.filter (fun a => a.user_id == exRowA.user.id) :=
  ⟨((user_queryset_spec exDb).1).trans (by decide),
   ((user_queryset_spec exDb).2 exRowA (by decide)).2.2⟩

/-- Claim C7: with no `neighborhood` query parameter, the users endpoint
applies no neighborhood restriction; with a non-empty parameter list, a
row of the profiled-users queryset is returned exactly when its
profile's neighborhood tag joins to a neighborhood whose tag is among
the requested values. -/
theorem user_viewset_queryset_filter (db : Database) (params : List String) :
    (params = [] → UserViewSet.get_queryset db params = get_user_queryset db)
    ∧ (params ≠ [] → ∀ row,
        row ∈ UserViewSet.get_queryset db params ↔
          row ∈ get_user_queryset db
          ∧ ∃ n, db.neighborhoods.find? (fun x => x.tag == row.profile.neighborhood_tag)
                  = some n
              ∧ n.tag ∈ params) := by
  constructor
  · intro h
    subst h
    rfl
  · intro hne row
    have hne' : params.isEmpty = false := by
      cases params with
      | nil => exact absurd rfl hne
      | cons a l => rfl
    unfold UserViewSet.get_queryset
    simp only [hne', Bool.false_eq_true, if_false, List.mem_filter]
    constructor
    · rintro ⟨hmem, hmatch⟩
      refine ⟨hmem, ?_⟩
      unfold neighborhoodTagMatches at hmatch
      cases hfind : db.neighborhoods.find?
          (fun x => x.tag == row.profile.neighborhood_tag) with
      | none => rw [hfind] at hmatch; exact absurd hmatch (by simp)
      | some n =>
        rw [hfind] at hmatch
        exact ⟨n, rfl, by simpa using hmatch⟩
    · rintro ⟨hmem, n, hfind, htag⟩
      refine ⟨hmem, ?_⟩
      unfold neighborhoodTagMatches
      rw [hfind]
      simpa using htag

/-- Claim C7, witness: filtering the example database by A's
neighborhood tag keeps A's row, and the empty parameter list applies no
restriction. -/
theorem user_viewset_queryset_filter_witness :
    UserViewSet.get_queryset exDb [] = get_user_queryset exDb
    ∧ exRowA ∈ UserViewSet.get_queryset exDb ["fishtown", "germantown"] :=
  ⟨(user_viewset_queryset_filter exDb []).1 rfl,
   ((user_viewset_queryset_filter exDb ["fishtown", "germantown"]).2 (by decide)
       exRowA).mpr
     ⟨by decide, { tag := "fishtown" }, by decide, by decide⟩⟩

/-- Claim C8: on a single-user-resource request the expanded ("self")
serializer is chosen exactly when the requested record's primary key
equals the caller's primary key; any other caller — including an
authenticated one, and the anonymous caller whose pk is `None` — gets
the public serializer. -/
theorem serializer_choice_self (o : User) (c : Caller) :
    UserViewSet.get_serializer_class (some o) c = .LoggedInUserSerializer
      ↔ some o.id = c.pk := by
  unfold UserViewSet.get_serializer_class
  split <;> simp_all

/-- Claim C9: a valid neighborhood-choice submission stores the chosen
neighborhood under the session's `neighborhood` key and redirects to
the provider-specific continuation URL; an invalid submission leaves
the session unchanged and re-renders the form with its errors. -/
theorem choose_neighborhood_outcomes (session : Session) (form : FormData)
    (errors : List String) :
    ChooseNeighborhoodView.post session (.valid form)
      = ({ session with neighborhood := some form.neighborhood },
         .redirect (ChooseNeighborhoodView.get_success_url form.auth_provider))
    ∧ ChooseNeighborhoodView.post session (.invalid errors)
      = (session, .render errors) :=
  ⟨rfl, rfl⟩

/-- Claim C10: on a list request (no single requested object), the
public serializer is chosen for every caller, so the choice does not
depend on the caller's identity. -/
theorem serializer_choice_list_public (c c' : Caller) :
    UserViewSet.get_serializer_class none c = .UserSerializer
    ∧ UserViewSet.get_serializer_class none c
        = UserViewSet.get_serializer_class none c' :=
  ⟨rfl, rfl⟩
